import Mathlib

/-!
Shallow embedding of `src/skills/10-stages-developing/templates/rust/function-template.rs`.

The template exposes a single pure function
`function_name(param1: &str, param2: i32) -> Result<FunctionResult, String>`:
it validates that `param1` is non-empty and `param2` is non-negative (in that
order), then returns `FunctionResult { key1: "processed_" ++ param1, key2: param2 * 2 }`.

Strings are embedded as Lean `String`, the `i32` argument as `Int`; the native
doubling `param2 * 2` is embedded with two's-complement wrapping into the
signed 32-bit range (`wrap32`), the behaviour Rust's native `i32` arithmetic
provides when overflow checks are disabled. Where a theorem depends on the
argument being a representable `i32`, the range appears as a hypothesis.
-/

/-- The `FunctionResult` record of the source: a text field `key1` and a
numeric (`i32`) field `key2`. -/
structure FunctionResult where
  key1 : String
  key2 : Int
deriving Repr, DecidableEq

/-- Two's-complement wrap of an integer into the signed 32-bit range
`[-2147483648, 2147483647]`, modelling Rust `i32` native arithmetic results
under wrapping semantics. -/
def wrap32 (z : Int) : Int :=
  if z % 4294967296 < 2147483648 then z % 4294967296 else z % 4294967296 - 4294967296

/-- Boolean test that `needle` occurs as a contiguous sublist of the second
argument; helper for `containsSubstr`. -/
def hasInfix (needle : List Char) : List Char → Bool
  | [] => needle.isEmpty
  | c :: t => needle.isPrefixOf (c :: t) || hasInfix needle t

/-- Substring containment on strings, modelling Rust `str::contains` as used by
the template's tests to classify error messages. -/
def containsSubstr (s sub : String) : Bool :=
  hasInfix sub.data s.data

/-- Embedding of the source's `function_name`: validate `param1` non-empty,
then `param2` non-negative, then build the result with the `"processed_"`
text and the doubled number (native `i32` doubling, hence `wrap32`). -/
def function_name (param1 : String) (param2 : Int) : Except String FunctionResult :=
  if param1.isEmpty then
    .error "param1 cannot be empty"
  else if param2 < 0 then
    .error "param2 must be non-negative"
  else
    .ok { key1 := "processed_" ++ param1, key2 := wrap32 (param2 * 2) }

/-- On valid inputs the operation succeeds with the concatenated text and the
wrapped double. -/
theorem function_name_ok (s : String) (n : Int) (hs : s ≠ "") (hn : 0 ≤ n) :
    function_name s n = .ok ⟨"processed_" ++ s, wrap32 (n * 2)⟩ := by
  unfold function_name
  rw [if_neg, if_neg]
  · omega
  · simp [String.isEmpty_iff, hs]

/-- When the mathematical double fits in `i32`, wrapping is the identity. -/
theorem wrap32_double_eq (n : Int) (h0 : 0 ≤ n) (h1 : n ≤ 1073741823) :
    wrap32 (n * 2) = 2 * n := by
  unfold wrap32
  split <;> omega

/-- C1: as stated ("for every integer n ≥ 0, key2 = 2·n") the claim fails once
2·n overflows `i32`; restricted to `n ≤ 1073741823` it holds: the operation
succeeds with `key1 = "processed_" ++ s` unchanged and `key2 = 2·n`. -/
theorem claim1_success_shape (s : String) (n : Int) (hs : s ≠ "")
    (h0 : 0 ≤ n) (h1 : n ≤ 1073741823) :
    function_name s n = .ok ⟨"processed_" ++ s, 2 * n⟩ := by
  rw [function_name_ok s n hs h0, wrap32_double_eq n h0 h1]

/-- C1 witness: at `("test", 42)` the hypotheses hold and the result is
`Ok { key1 := "processed_test", key2 := 84 }`. -/
theorem claim1_success_shape_witness :
    function_name "test" 42 = .ok ⟨"processed_test", 84⟩ :=
  claim1_success_shape "test" 42 (by decide) (by decide) (by decide)

/-- C1 counterexample: at the valid `i32` input `n = 1073741824` the call
succeeds but `key2 = -2147483648 ≠ 2 · 1073741824`, refuting the unrestricted
claim. -/
theorem claim1_counterexample :
    function_name "a" 1073741824 = .ok ⟨"processed_a", -2147483648⟩ ∧
    (-2147483648 : Int) ≠ 2 * 1073741824 := by
  exact ⟨rfl, by decide⟩

/-- C2: for every integer `n`, `function_name "" n` fails with exactly
`"param1 cannot be empty"`, whose text contains the substring `"empty"`. -/
theorem claim2_empty_text_fails (n : Int) :
    function_name "" n = .error "param1 cannot be empty" ∧
    containsSubstr "param1 cannot be empty" "empty" = true := by
  exact ⟨rfl, by decide⟩

/-- C3: for every non-empty `s` and negative `n`, the call fails with
`"param2 must be non-negative"`, whose text contains `"non-negative"`. -/
theorem claim3_negative_fails (s : String) (n : Int) (hs : s ≠ "") (hn : n < 0) :
    function_name s n = .error "param2 must be non-negative" ∧
    containsSubstr "param2 must be non-negative" "non-negative" = true := by
  refine ⟨?_, by decide⟩
  unfold function_name
  rw [if_neg, if_pos hn]
  simp [String.isEmpty_iff, hs]

/-- C3 witness: at `("test", -1)` the hypotheses hold. -/
theorem claim3_negative_fails_witness :
    function_name "test" (-1) = .error "param2 must be non-negative" ∧
    containsSubstr "param2 must be non-negative" "non-negative" = true :=
  claim3_negative_fails "test" (-1) (by decide) (by decide)

/-- C4: when both preconditions are violated (empty text, negative number) the
empty-text check wins: the error contains `"empty"` and not `"non-negative"`. -/
theorem claim4_short_circuit (n : Int) (_hn : n < 0) :
    function_name "" n = .error "param1 cannot be empty" ∧
    containsSubstr "param1 cannot be empty" "empty" = true ∧
    containsSubstr "param1 cannot be empty" "non-negative" = false :=
  ⟨rfl, by decide, by decide⟩

/-- C4 witness: at `n = -1`. -/
theorem claim4_short_circuit_witness :
    function_name "" (-1) = .error "param1 cannot be empty" ∧
    containsSubstr "param1 cannot be empty" "empty" = true ∧
    containsSubstr "param1 cannot be empty" "non-negative" = false :=
  claim4_short_circuit (-1) (by decide)

/-- C5: doubling is the native `i32` multiplication: while `2·n` fits
(`n ≤ 1073741823`) the result is exactly `2·n`; above that bound but within
`i32` the result is the wrapped value `2·n - 2^32`, which differs from the
mathematical `2·n`. -/
theorem claim5_native_doubling (s : String) (n : Int) (hs : s ≠ "") :
    (0 ≤ n → n ≤ 1073741823 →
      function_name s n = .ok ⟨"processed_" ++ s, 2 * n⟩) ∧
    (1073741823 < n → n < 2147483648 →
      function_name s n = .ok ⟨"processed_" ++ s, 2 * n - 4294967296⟩ ∧
        2 * n - 4294967296 ≠ 2 * n) := by
  constructor
  · intro h0 h1
    exact claim1_success_shape s n hs h0 h1
  · intro h0 h1
    refine ⟨?_, by omega⟩
    rw [function_name_ok s n hs (by omega)]
    have : wrap32 (n * 2) = 2 * n - 4294967296 := by
      unfold wrap32; split <;> omega
    rw [this]

/-- C5 witness: at `("a", 2000000000)` the overflow branch applies and the
result's `key2` is `-294967296`. -/
theorem claim5_native_doubling_witness :
    function_name "a" 2000000000 = .ok ⟨"processed_a", 2 * 2000000000 - 4294967296⟩ ∧
    2 * (2000000000 : Int) - 4294967296 ≠ 2 * 2000000000 :=
  (claim5_native_doubling "a" 2000000000 (by decide)).2 (by decide) (by decide)

/-- C6: the operation is a pure function of its arguments: two invocations with
identical inputs are identical results. -/
theorem claim6_deterministic (s : String) (n : Int) :
    function_name s n = function_name s n := rfl

/-- C7: zero is accepted at the boundary: for every non-empty `s` the call
`function_name s 0` succeeds with `key2 = 0`. -/
theorem claim7_zero_boundary (s : String) (hs : s ≠ "") :
    function_name s 0 = .ok ⟨"processed_" ++ s, 0⟩ :=
  claim1_success_shape s 0 hs (by decide) (by decide)

/-- C7 witness: at `s = "test"`. -/
theorem claim7_zero_boundary_witness :
    function_name "test" 0 = .ok ⟨"processed_test", 0⟩ :=
  claim7_zero_boundary "test" (by decide)

/-- C8: the concrete scenarios of the spec and the source's tests evaluate as
listed. -/
theorem claim8_scenarios :
    function_name "hello" 42 = .ok ⟨"processed_hello", 84⟩ ∧
    function_name "world" 5 = .ok ⟨"processed_world", 10⟩ ∧
    function_name "test" 0 = .ok ⟨"processed_test", 0⟩ ∧
    function_name "test" 1000000 = .ok ⟨"processed_test", 2000000⟩ ∧
    function_name "" 10 = .error "param1 cannot be empty" ∧
    function_name "test" (-1) = .error "param2 must be non-negative" := by
  exact ⟨rfl, rfl, rfl, rfl, rfl, rfl⟩

/-- C9: the two failure messages are exact constants, and no other error
message is ever returned. -/
theorem claim9_exact_messages (s : String) (n : Int) :
    (s = "" → function_name s n = .error "param1 cannot be empty") ∧
    (s ≠ "" → n < 0 → function_name s n = .error "param2 must be non-negative") ∧
    (∀ e, function_name s n = .error e →
      e = "param1 cannot be empty" ∨ e = "param2 must be non-negative") := by
  refine ⟨?_, ?_, ?_⟩
  · rintro rfl; rfl
  · exact fun hs hn => (claim3_negative_fails s n hs hn).1
  · intro e he
    unfold function_name at he
    split at he
    · exact Or.inl (Except.error.inj he).symm
    · split at he
      · exact Or.inr (Except.error.inj he).symm
      · exact absurd he (by simp)

/-- C9 witness: both exact messages are realised at concrete inputs. -/
theorem claim9_exact_messages_witness :
    function_name "" 5 = .error "param1 cannot be empty" ∧
    function_name "x" (-2) = .error "param2 must be non-negative" :=
  ⟨(claim9_exact_messages "" 5).1 rfl,
   (claim9_exact_messages "x" (-2)).2.1 (by decide) (by decide)⟩

/-- C10: emptiness means zero length only: the one-space string passes
validation, so for every `n ≥ 0` the call succeeds with
`key1 = "processed_ "`. -/
theorem claim10_whitespace_passes (n : Int) (hn : 0 ≤ n) :
    (function_name " " n).isOk = true ∧
    function_name " " n = .ok ⟨"processed_ ", wrap32 (n * 2)⟩ := by
  have h := function_name_ok " " n (by decide) hn
  exact ⟨by rw [h]; rfl, h⟩

/-- C10 witness: at `n = 3` the call succeeds with `key1 = "processed_ "` and
`key2 = 6`. -/
theorem claim10_whitespace_passes_witness :
    (function_name " " 3).isOk = true ∧
    function_name " " 3 = .ok ⟨"processed_ ", wrap32 (3 * 2)⟩ :=
  claim10_whitespace_passes 3 (by decide)
